import Mathlib

/-!
Shallow embedding of the core of the zyte-autoextract client library
(src/autoextract), together with proofs about its request processor,
error taxonomy, retry stop strategy, request serialization, credential
resolution and statistics accounting.

Python dicts are modelled as association lists `List (String × Val)`
(dict keys are unique in all source-produced dicts, and insertion order
is preserved, matching CPython semantics).  Python `None` is `Val.null`,
a missing dict key is `Option.none`, exceptions are `Except`, and
Python floats are modelled as rationals `ℚ`.
-/

/-- A scalar JSON-ish value appearing in the wire dicts of the library. -/
inductive Val where
  | s (v : String)
  | b (v : Bool)
  | n (v : Int)
  | null
deriving DecidableEq, Repr

/-- The `query` record echoed by the server in every per-query result
(`query.id`, `query.domain` and the echoed `query.userQuery`). -/
structure QueryInfo where
  id : String
  domain : String
  userQuery : List (String × Val)
deriving DecidableEq, Repr

/-- One per-query result from a 2xx envelope: the echoed `query` record,
the optional `error` string (`none` models the key being absent), and the
remaining (opaque) extraction payload fields. -/
structure QueryResult where
  query : QueryInfo
  error : Option String
  payload : List (String × Val)
deriving DecidableEq, Repr

/-! ### Character and string helpers

`re.IGNORECASE` matching is modelled by comparing `Char.toLower` images
(the source only ever matches ASCII literals). A `.` in the source regexes
matches any character except a newline (no `re.DOTALL` is used). -/

/-- Case-insensitive "starts with": `pat` matches the beginning of `cs`
when both are lowered character by character. -/
def ciStartsWith : List Char → List Char → Bool
  | [], _ => true
  | _ :: _, [] => false
  | p :: ps, c :: cs => (p.toLower == c.toLower) && ciStartsWith ps cs

/-- Case-insensitive substring test, modelling `re.search` for a literal
pattern compiled with `re.IGNORECASE`. -/
def ciContains (pat : List Char) (cs : List Char) : Bool :=
  (List.range (cs.length + 1)).any (fun i => ciStartsWith pat (cs.drop i))

/-- True when no character is a newline; the region matched by `.` in the
source regexes (which never use `re.DOTALL`) satisfies this. -/
def noNewlines (cs : List Char) : Bool :=
  cs.all (fun c => c != '\n')

/-- Try `p` at `n`, then `n-1`, …, then `0`, returning the first success:
the backtracking order of a greedy regex quantifier. -/
def findGreedy (p : Nat → Option α) : Nat → Option α
  | 0 => p 0
  | n + 1 =>
    match p (n + 1) with
    | some r => some r
    | none => findGreedy p n

/-! ### The domain-occupied regex

`DomainOccupied.DOMAIN_OCCUPIED_REGEX` in src/autoextract/aio/errors.py is

  `.*domain (.+) is occupied, please retry in (.+) seconds.*`

compiled with `re.IGNORECASE` and applied with `.match` (anchored at the
start).  The leading `.*` and the two `(.+)` groups are greedy: Python
backtracks from the longest prefix/group, so the match is the
lexicographically greatest triple of lengths (prefix, group 1, group 2)
over all decompositions.  Groups are captured from the original string;
the literal parts compare case-insensitively; `.` does not cross a
newline; the trailing `.*` is unconstrained. -/

/-- Literal between the start anchor region and group 1. -/
def domainLit1 : List Char := "domain ".data

/-- Literal between group 1 and group 2. -/
def domainLit2 : List Char := " is occupied, please retry in ".data

/-- Literal after group 2. -/
def domainLit3 : List Char := " seconds".data

/-- Greedy match of `(.+) seconds.*` against `r2`, returning group 2. -/
def matchSecondsGroup (r2 : List Char) : Option (List Char) :=
  findGreedy (fun len =>
    let s := r2.take len
    if 1 ≤ len && noNewlines s && ciStartsWith domainLit3 (r2.drop len)
    then some s else none) r2.length

/-- Greedy match of `(.+) is occupied, please retry in (.+) seconds.*`
against `r1`, returning groups 1 and 2. -/
def matchDomainGroup (r1 : List Char) : Option (List Char × List Char) :=
  findGreedy (fun len =>
    let d := r1.take len
    if 1 ≤ len && noNewlines d && ciStartsWith domainLit2 (r1.drop len)
    then (matchSecondsGroup ((r1.drop len).drop domainLit2.length)).map
      (fun s => (d, s))
    else none) r1.length

/-- Greedy match of the whole pattern from the start of `cs` (the leading
`.*` may be empty and may not cross a newline). -/
def matchDomainOccupied (cs : List Char) : Option (List Char × List Char) :=
  findGreedy (fun len =>
    let a := cs.take len
    if noNewlines a && ciStartsWith domainLit1 (cs.drop len)
    then matchDomainGroup ((cs.drop len).drop domainLit1.length)
    else none) cs.length

/-- `DOMAIN_OCCUPIED_REGEX.match(message)`, returning the two captured
groups (domain, seconds-text) of the greedy match, if any. -/
def domainOccupiedMatch (msg : String) : Option (String × String) :=
  (matchDomainOccupied msg.data).map (fun p => (String.mk p.1, String.mk p.2))

/-! ### Python `float()` on the captured seconds group

Modelled for finite decimal/exponent numerals with optional surrounding
whitespace and sign, as accepted by the CPython builtin.  (Named infinities,
NaN and underscore digit separators are outside the model.) -/

/-- Numeric value of a list of decimal digit characters. -/
def digitsToNat (l : List Char) : Nat :=
  l.foldl (fun a c => 10 * a + (c.toNat - ('0').toNat)) 0

/-- Strip one optional leading sign; returns (isNegative, rest). -/
def parseSign : List Char → Bool × List Char
  | '+' :: r => (false, r)
  | '-' :: r => (true, r)
  | r => (false, r)

/-- Parse `digits [. digits]` (at least one digit overall), returning the
integer-part value, the fraction-part value and its digit count, and the
unconsumed rest. -/
def parseMantissa (cs : List Char) : Option ((Nat × Nat × Nat) × List Char) :=
  let ip := cs.takeWhile Char.isDigit
  let r := cs.dropWhile Char.isDigit
  match r with
  | '.' :: r2 =>
    let fp := r2.takeWhile Char.isDigit
    let r3 := r2.dropWhile Char.isDigit
    if ip.isEmpty && fp.isEmpty then none
    else some ((digitsToNat ip, digitsToNat fp, fp.length), r3)
  | _ => if ip.isEmpty then none else some ((digitsToNat ip, 0, 0), r)

/-- Parse an optional exponent part `(e|E)[+|-]digits` closing the numeral,
returning (exponent is negative, exponent magnitude). -/
def parseExponent (cs : List Char) : Option (Bool × Nat) :=
  match cs with
  | [] => some (false, 0)
  | c :: r =>
    if c == 'e' || c == 'E' then
      let sr := parseSign r
      let ds := sr.2.takeWhile Char.isDigit
      let r3 := sr.2.dropWhile Char.isDigit
      if ds.isEmpty || !r3.isEmpty then none
      else some (sr.1, digitsToNat ds)
    else none

/-- Model of the CPython builtin `float(s)`: `none` models `ValueError`.
The numeral `[-]I.F e[-]E` denotes the rational
`(± (I * 10^|F| + F) * 10^E) / 10^|F|` (with `10^E` in the denominator for a
negative exponent), assembled here with `mkRat` over integer arithmetic. -/
def pyFloat (s : String) : Option ℚ :=
  let cs := ((s.data.dropWhile Char.isWhitespace).reverse.dropWhile
    Char.isWhitespace).reverse
  let sr := parseSign cs
  match parseMantissa sr.2 with
  | none => none
  | some mr =>
    match parseExponent mr.2 with
    | none => none
    | some er =>
      let mag : Nat := mr.1.1 * 10 ^ mr.1.2.2 + mr.1.2.1
      let num : Int := if sr.1 then -(mag : Int) else (mag : Int)
      some (if er.1 then mkRat num (10 ^ mr.1.2.2 * 10 ^ er.2)
            else mkRat (num * 10 ^ er.2) (10 ^ mr.1.2.2))

/-! ### DomainOccupied (src/autoextract/aio/errors.py) -/

/-- A parsed "domain … is occupied, please retry in … seconds" directive. -/
structure DomainOccupied where
  domain : String
  retry_seconds : ℚ
deriving DecidableEq, Repr

namespace DomainOccupied

/-- `DomainOccupied.DEFAULT_RETRY_SECONDS = 5 * 60` (five minutes). -/
def DEFAULT_RETRY_SECONDS : ℚ := 300

/-- `DomainOccupied.from_message`: match the occupied-domain regex; group 1
is the domain and group 2 is parsed with `float`, defaulting to
`DEFAULT_RETRY_SECONDS` on `ValueError`. -/
def from_message (message : String) : Option DomainOccupied :=
  match domainOccupiedMatch message with
  | none => none
  | some (d, s) =>
    some { domain := d, retry_seconds := (pyFloat s).getD DEFAULT_RETRY_SECONDS }

end DomainOccupied

/-- `_RETRIABLE_ERR_MSGS` from src/autoextract/aio/errors.py. -/
def RETRIABLE_ERR_MSGS : List String := [
  "query timed out",
  "Downloader error: No response",
  "Downloader error: http50",
  "Downloader error: 50",
  "Downloader error: GlobalTimeoutError",
  "Downloader error: ConnectionResetByPeer",
  "Proxy error: banned",
  "Proxy error: internal_error",
  "Proxy error: nxdomain",
  "Proxy error: timeout",
  "Proxy error: ssl_tunnel_error",
  "Proxy error: msgtimeout",
  "Proxy error: econnrefused",
  "Proxy error: connect_timeout"
]

/-- `is_retriable_error_msg(msg)`: `None` is treated as the empty string;
true iff the case-insensitive alternation of `_RETRIABLE_ERR_MSGS` literals
matches somewhere in the message. -/
def is_retriable_error_msg (msg : Option String) : Bool :=
  let m := (msg.getD "").data
  RETRIABLE_ERR_MSGS.any (fun p => ciContains p.data m)

/-- `_NON_BILLABLE_ERR_MSGS` from src/autoextract/aio/errors.py. -/
def NON_BILLABLE_ERR_MSGS : List String := [
  "malformed url",
  "URL cannot be longer than",
  "non-HTTP schemas are not allowed",
  "Extraction not permitted for this URL"
]

/-- `is_billable_error_msg(msg)`: `None` is treated as the empty string;
an error is billable unless a non-billable literal occurs in it
(case-insensitively) or it is a domain-occupied message. -/
def is_billable_error_msg (msg : Option String) : Bool :=
  let m := msg.getD ""
  let is_domain_occupied := (DomainOccupied.from_message m).isSome
  let is_not_billable :=
    NON_BILLABLE_ERR_MSGS.any (fun p => ciContains p.data m.data)
      || is_domain_occupied
  !is_not_billable

/-! ### _QueryError (src/autoextract/aio/errors.py) -/

/-- The `_QueryError` exception: the full server `query` record, the error
message and the `max_retries` the processor was configured with. -/
structure QueryError where
  query : QueryInfo
  message : String
  max_retries : Nat
deriving DecidableEq, Repr

namespace QueryError

/-- `self.domain_occupied`, computed from the message at construction. -/
def domain_occupied (e : QueryError) : Option DomainOccupied :=
  DomainOccupied.from_message e.message

/-- `_QueryError.retriable`: true on a domain-occupied directive, else
deferred to `is_retriable_error_msg`. -/
def retriable (e : QueryError) : Bool :=
  if (domain_occupied e).isSome then true
  else is_retriable_error_msg (some e.message)

/-- `_QueryError.retry_seconds`: the occupied-domain delay when present,
otherwise `0.0`. -/
def retry_seconds (e : QueryError) : ℚ :=
  match domain_occupied e with
  | some d => d.retry_seconds
  | none => 0

/-- `_QueryError.from_query_result`: build the exception from a per-query
result (`query_result["query"]`, `query_result["error"]`). -/
def from_query_result (r : QueryResult) (max_retries : Nat) : QueryError :=
  { query := r.query, message := r.error.getD "", max_retries := max_retries }

end QueryError

/-! ### RequestProcessor (src/autoextract/aio/client.py)

The processor is a mutable Python object; it is embedded as a record with
every method a state transition.  `process_results` both mutates the state
and either raises a `_QueryError` or returns the merged result list, so it
is modelled as returning the new state together with an `Except`.

The in-place `del user_query['userAgent']` in `_enqueue_error` mutates the
`userQuery` dict that is aliased by the stored `query_result`; the
embedding therefore stores the stripped record in `retriable_queries`. -/

deriving instance DecidableEq for Except

/-- A wire-form user query (one element of `pending_queries`). -/
abbrev UserQuery := List (String × Val)

/-- Remove the `userAgent` key from a user query dict (`del` when present,
no-op when absent; source dict keys are unique). -/
def stripUserAgent (uq : UserQuery) : UserQuery :=
  uq.filter (fun kv => kv.1 != "userAgent")

/-- The effect of `del user_query['userAgent']` on the aliased stored
query result. -/
def stripResultUserAgent (r : QueryResult) : QueryResult :=
  { r with query := { r.query with userQuery := stripUserAgent r.query.userQuery } }

/-- The mutable state of a `RequestProcessor`. -/
structure RequestProcessor where
  pending_queries : List UserQuery
  retriable_queries : List QueryResult
  retriable_query_exceptions : List QueryError
  complete_queries : List QueryResult
  max_retries : Nat
  n_extracted_queries : Nat
  n_query_responses : Nat
  n_billable_query_responses : Nat
deriving DecidableEq, Repr

namespace RequestProcessor

/-- `RequestProcessor.__init__` for a query already in wire (dict) form:
`_reset`, then `pending_queries := query_as_dict_list(query)` and zeroed
counters. -/
def init (query : List UserQuery) (max_retries : Nat) : RequestProcessor :=
  { pending_queries := query
    retriable_queries := []
    retriable_query_exceptions := []
    complete_queries := []
    max_retries := max_retries
    n_extracted_queries := 0
    n_query_responses := 0
    n_billable_query_responses := 0 }

/-- `RequestProcessor._reset`: clear the temporary per-attempt lists. -/
def reset (s : RequestProcessor) : RequestProcessor :=
  { s with pending_queries := []
           retriable_queries := []
           retriable_query_exceptions := [] }

/-- `RequestProcessor._enqueue_error`: store the retriable result and its
exception, strip `userAgent` from the aliased `userQuery` (a documented
backend workaround) and append that dict to `pending_queries`. -/
def enqueue_error (s : RequestProcessor) (r : QueryResult) (e : QueryError) :
    RequestProcessor :=
  { s with retriable_queries := s.retriable_queries ++ [stripResultUserAgent r]
           retriable_query_exceptions := s.retriable_query_exceptions ++ [e]
           pending_queries := s.pending_queries ++ [stripUserAgent r.query.userQuery] }

/-- `RequestProcessor.get_latest_results`: errors plus successes. -/
def get_latest_results (s : RequestProcessor) : List QueryResult :=
  s.complete_queries ++ s.retriable_queries

/-- The body of the `for query_result in query_results` loop of
`process_results`: bump the response counters, then either enqueue a
retriable error or append to `complete_queries`. -/
def processOne (s : RequestProcessor) (r : QueryResult) : RequestProcessor :=
  let s1 := { s with n_query_responses := s.n_query_responses + 1 }
  let s2 :=
    match r.error with
    | none =>
      { s1 with n_extracted_queries := s1.n_extracted_queries + 1
                n_billable_query_responses := s1.n_billable_query_responses + 1 }
    | some msg =>
      if is_billable_error_msg (some msg)
      then { s1 with n_billable_query_responses := s1.n_billable_query_responses + 1 }
      else s1
  match r.error with
  | some msg =>
    if s2.max_retries ≠ 0 then
      let query_exception : QueryError :=
        { query := r.query, message := msg, max_retries := s2.max_retries }
      if query_exception.retriable then enqueue_error s2 r query_exception
      else { s2 with complete_queries := s2.complete_queries ++ [r] }
    else { s2 with complete_queries := s2.complete_queries ++ [r] }
  | none => { s2 with complete_queries := s2.complete_queries ++ [r] }

/-- Python `max(xs, key=f)`: the first element attaining the greatest key
(a later element replaces the accumulator only when strictly greater). -/
def pyMaxBy (f : QueryError → ℚ) : List QueryError → Option QueryError
  | [] => none
  | x :: xs => some (xs.foldl (fun acc y => if f acc < f y then y else acc) x)

/-- `RequestProcessor.process_results`: reset the per-attempt lists,
process every result, then raise the retriable exception with the longest
timeout if any was enqueued, else return `get_latest_results()`. -/
def process_results (s : RequestProcessor) (query_results : List QueryResult) :
    RequestProcessor × Except QueryError (List QueryResult) :=
  let s := query_results.foldl processOne s.reset
  match pyMaxBy QueryError.retry_seconds s.retriable_query_exceptions with
  | some e => (s, Except.error e)
  | none => (s, Except.ok s.get_latest_results)

/-- Run a sequence of `process_results` calls, keeping only the state. -/
def runAttempts (s : RequestProcessor) : List (List QueryResult) → RequestProcessor
  | [] => s
  | rs :: rest => runAttempts (s.process_results rs).1 rest

/-- The server contract assumed by the processor (spec §6): each response
is one per-query result per pending query, in order, echoing the submitted
query as `query.userQuery`. -/
def wfAttempts (s : RequestProcessor) : List (List QueryResult) → Bool
  | [] => true
  | rs :: rest =>
    (rs.map (fun r => r.query.userQuery) == s.pending_queries)
      && wfAttempts (s.process_results rs).1 rest

/-- The query coverage invariant: complete queries plus the still-pending
wire queries cover the original input queries, up to `userAgent` stripping
and reordering. -/
def userQueryCoverage (query : List UserQuery) (s : RequestProcessor) : Prop :=
  List.Perm
    (s.complete_queries.map (fun r => stripUserAgent r.query.userQuery) ++
      s.pending_queries.map stripUserAgent)
    (query.map stripUserAgent)

end RequestProcessor

/-- The branch condition of the `process_results` loop: `max_retries` is
truthy, the result carries an error, and the `_QueryError` built from it is
retriable. -/
def isRetriableResult (m : Nat) (r : QueryResult) : Bool :=
  decide (m ≠ 0) &&
    (match r.error with
     | some msg => QueryError.retriable { query := r.query, message := msg, max_retries := m }
     | none => false)

/-- A result with an error whose `_QueryError` is retriable (independent of
`max_retries`, which the retriability test never reads). -/
def hasRetriableError (r : QueryResult) : Bool :=
  match r.error with
  | some msg => (DomainOccupied.from_message msg).isSome || is_retriable_error_msg (some msg)
  | none => false

/-- Billing classification of one per-query result as counted by
`process_results`: no `error` key, or a billable error message. -/
def isBillableResult (r : QueryResult) : Bool :=
  match r.error with
  | none => true
  | some msg => is_billable_error_msg (some msg)

/-! ### Request (src/autoextract/request.py) -/

/-- The typed per-URL request record.  `articleBodyRaw` defaults to
`False` (the library overrides the server default of true); `None` in any
optional field means "unset". -/
structure Request where
  url : String
  pageType : String
  meta : Option String := none
  articleBodyRaw : Option Bool := some false
  fullHtml : Option Bool := none
  extra : Option (List (String × Val)) := none
deriving DecidableEq, Repr

/-- An unset optional string field as it appears in `attr.asdict`. -/
def optStrVal : Option String → Val
  | none => Val.null
  | some v => Val.s v

/-- An unset optional bool field as it appears in `attr.asdict`. -/
def optBoolVal : Option Bool → Val
  | none => Val.null
  | some v => Val.b v

/-- CPython `d.update(...)`: an existing key is overwritten in place, a
new key is appended at the end. -/
def pyDictUpdate (d e : List (String × Val)) : List (String × Val) :=
  e.foldl (fun acc kv =>
    if acc.any (fun kv2 => kv2.1 == kv.1)
    then acc.map (fun kv2 => if kv2.1 == kv.1 then (kv2.1, kv.2) else kv2)
    else acc ++ [kv]) d

/-- `Request.as_dict`: `attr.asdict(self)` in field order, update with
`extra or {}`, delete the `extra` key, then keep only entries whose value
is not `None`.  The value originally at the `extra` slot is a dict that is
always deleted before the return, so the slot is modelled as `null`. -/
def Request.as_dict (r : Request) : List (String × Val) :=
  let d := [("url", Val.s r.url), ("pageType", Val.s r.pageType),
            ("meta", optStrVal r.meta), ("articleBodyRaw", optBoolVal r.articleBodyRaw),
            ("fullHtml", optBoolVal r.fullHtml), ("extra", Val.null)]
  let d := pyDictUpdate d (r.extra.getD [])
  let d := d.filter (fun kv => kv.1 != "extra")
  d.filter (fun kv => kv.2 != Val.null)

/-! ### Credential resolver (src/autoextract/apikey.py, constants.py) -/

/-- `ENV_VARIABLE` from src/autoextract/constants.py. -/
def ENV_VARIABLE : String := "ZYTE_AUTOEXTRACT_KEY"

/-- The `NoApiKey` exception. -/
inductive ApiKeyError where
  | noApiKey
deriving DecidableEq, Repr

/-- Python truthiness of an optional string (`not key` is true exactly for
`None` and the empty string). -/
def pyTruthy : Option String → Bool
  | none => false
  | some v => v != ""

/-- `get_apikey(key)`: fall back to `os.environ[ENV_VARIABLE]` when `key`
is falsy (a missing variable is swallowed and leaves `key` unchanged);
raise `NoApiKey` when the result is still falsy.  The environment is an
explicit argument. -/
def get_apikey (key : Option String) (environ : String → Option String) :
    Except ApiKeyError String :=
  let key1 : Option String :=
    if !pyTruthy key then
      match environ ENV_VARIABLE with
      | some v => some v
      | none => key
    else key
  if !pyTruthy key1 then Except.error ApiKeyError.noApiKey
  else Except.ok (key1.getD "")

/-! ### User agent (src/autoextract/utils.py) -/

/-- `user_agent(library)`: the composed User-Agent header.  The library
version (`autoextract.__version__`) and the transport module's name and
version are explicit arguments. -/
def user_agent (version libName libVersion : String) : String :=
  "scrapinghub-autoextract/" ++ version ++ " " ++ libName ++ "/" ++ libVersion

/-! ### Retry stop strategy (src/autoextract/aio/retry.py)

The exceptions the retry condition dispatches on.  `RequestError` is
represented by its HTTP status; every aiohttp network error is collapsed
into one constructor (the classifiers only test membership in
`_NETWORK_ERRORS`, and `_is_network_error` explicitly excludes
`RequestError`). -/

inductive RetryExc where
  | requestError (status : Nat)
  | networkError
  | queryError (e : QueryError)
  | other
deriving DecidableEq, Repr

/-- `_is_throttling_error`: a RequestError with status 429. -/
def is_throttling_error : RetryExc → Bool
  | RetryExc.requestError status => status == 429
  | _ => false

/-- `_is_network_error`: a listed network error that is not a RequestError. -/
def is_network_error : RetryExc → Bool
  | RetryExc.networkError => true
  | _ => false

/-- `_is_server_error`: a RequestError with status ≥ 500. -/
def is_server_error : RetryExc → Bool
  | RetryExc.requestError status => 500 ≤ status
  | _ => false

/-- `_is_retriable_query_error`. -/
def is_retriable_query_error : RetryExc → Bool
  | RetryExc.queryError e => e.retriable
  | _ => false

/-- `_is_domain_occupied_query_error`. -/
def is_domain_occupied_query_error : RetryExc → Bool
  | RetryExc.queryError e => (e.domain_occupied).isSome
  | _ => false

/-- The per-call state tenacity hands to a stop strategy. -/
structure RetryCallState where
  attempt_number : Nat
  seconds_since_start : ℚ
deriving DecidableEq, Repr

/-- tenacity `stop_after_delay(max_delay)`. -/
def stop_after_delay (max_delay : ℚ) (st : RetryCallState) : Bool :=
  max_delay ≤ st.seconds_since_start

/-- The 15-minute deadline `15 * 60` shared by the bounded stop rules. -/
def RETRY_STOP_DELAY : ℚ := 900

/-- tenacity `stop_never`. -/
def stop_never (_ : RetryCallState) : Bool :=
  false

/-- `autoextract_stop_strategy.__call__`: dispatch on the exception class;
`none` models the `RuntimeError` raised on an unclassified exception.
Throttling and domain-occupied query errors never stop; network, server
and other retriable query errors stop after 15 minutes elapsed. -/
def autoextract_stop_strategy (exc : RetryExc) (st : RetryCallState) :
    Option Bool :=
  if is_throttling_error exc then some (stop_never st)
  else if is_network_error exc then some (stop_after_delay RETRY_STOP_DELAY st)
  else if is_server_error exc then some (stop_after_delay RETRY_STOP_DELAY st)
  else if is_domain_occupied_query_error exc then some (stop_never st)
  else if is_retriable_query_error exc then
    some (stop_after_delay RETRY_STOP_DELAY st)
  else none

/-- The stop rule claimed by the specification for a retriable QueryError
loop: stop at the earlier of 15 minutes elapsed or `maxQueryErrorRetries+1`
attempts (tenacity `stop_after_delay(15*60) | stop_after_attempt(n+1)`).
Stated from the spec's words for comparison with the code's strategy. -/
def claimedQueryErrorStop (maxQueryErrorRetries : Nat) (st : RetryCallState) :
    Bool :=
  stop_after_delay RETRY_STOP_DELAY st ||
    decide (maxQueryErrorRetries + 1 ≤ st.attempt_number)

/-! ### request_raw terminal handling (src/autoextract/aio/client.py)

Only the terminal `try/except/finally` block around the (retry-wrapped)
`request()` coroutine is embedded; the HTTP attempt itself is transport
code outside the model.  Its outcome is a parameter. -/

/-- The aggregate statistics counters of `AggStats` (the two running-time
`Statistics` accumulators are wall-clock measurements outside the model). -/
structure AggStats where
  n_results : Nat := 0
  n_fatal_errors : Nat := 0
  n_attempts : Nat := 0
  n_429 : Nat := 0
  n_errors : Nat := 0
  n_input_queries : Nat := 0
  n_extracted_queries : Nat := 0
  n_query_responses : Nat := 0
  n_billable_query_responses : Nat := 0
deriving DecidableEq, Repr

/-- Modelled from the spec: the outcome of awaiting the retry-wrapped
`request()` coroutine.  The retry engine `autoextract_retrying` used by
`request_raw` is not part of the sources (client.py imports it from
.retry, which only defines an older `autoextract_retry`); per the spec its
`reraise` mode re-raises the last underlying exception on exhaustion, so a
`_QueryError` exhaustion surfaces as the `_QueryError` itself.  Any other
escaping exception is opaque to the terminal handler. -/
inductive RequestOutcome where
  | ok (results : List QueryResult)
  | queryError (e : QueryError)
  | fatal
deriving DecidableEq, Repr

/-- The `finally` block of `request_raw`: accumulate the processor's local
counters into the aggregate stats. -/
def aggStatsFinally (rp : RequestProcessor) (nInputQueries : Nat)
    (agg : AggStats) : AggStats :=
  { agg with
    n_input_queries := agg.n_input_queries + nInputQueries
    n_extracted_queries := agg.n_extracted_queries + rp.n_extracted_queries
    n_billable_query_responses :=
      agg.n_billable_query_responses + rp.n_billable_query_responses
    n_query_responses := agg.n_query_responses + rp.n_query_responses }

/-- The terminal `try/except/finally` of `request_raw` (client.py lines
291-314): a `_QueryError` that escapes the retry wrapper is converted into
`get_latest_results()`; any other exception bumps `n_fatal_errors` and
re-raises; the `finally` accumulation always runs, and `n_results` is
bumped only when a result is returned. -/
def request_raw_terminal (rp : RequestProcessor) (nInputQueries : Nat)
    (agg : AggStats) (outcome : RequestOutcome) :
    Except Unit (List QueryResult) × AggStats :=
  match outcome with
  | RequestOutcome.ok results =>
    let agg := aggStatsFinally rp nInputQueries agg
    (Except.ok results, { agg with n_results := agg.n_results + 1 })
  | RequestOutcome.queryError _ =>
    let agg := aggStatsFinally rp nInputQueries agg
    (Except.ok rp.get_latest_results, { agg with n_results := agg.n_results + 1 })
  | RequestOutcome.fatal =>
    let agg := aggStatsFinally rp nInputQueries
      { agg with n_fatal_errors := agg.n_fatal_errors + 1 }
    (Except.error (), agg)

/-! ## Characterization lemmas for the request processor -/

namespace RequestProcessor

theorem retriable_eq_or (e : QueryError) :
    e.retriable = ((e.domain_occupied).isSome || is_retriable_error_msg (some e.message)) := by
  unfold QueryError.retriable
  cases h : (e.domain_occupied).isSome <;> simp [h]

theorem isRetriableResult_eq (m : Nat) (r : QueryResult) :
    isRetriableResult m r = (decide (m ≠ 0) && hasRetriableError r) := by
  unfold isRetriableResult hasRetriableError
  cases hr : r.error <;>
    simp [retriable_eq_or, QueryError.domain_occupied]

/-- One step of the `process_results` loop, written as a branch on the
retriability of the result. -/
theorem processOne_eq (s : RequestProcessor) (r : QueryResult) :
    processOne s r =
      if isRetriableResult s.max_retries r then
        { s with
          n_query_responses := s.n_query_responses + 1
          n_billable_query_responses := s.n_billable_query_responses +
            (if isBillableResult r then 1 else 0)
          n_extracted_queries := s.n_extracted_queries +
            (if r.error.isNone then 1 else 0)
          retriable_queries := s.retriable_queries ++ [stripResultUserAgent r]
          retriable_query_exceptions := s.retriable_query_exceptions ++
            [QueryError.from_query_result r s.max_retries]
          pending_queries := s.pending_queries ++ [stripUserAgent r.query.userQuery] }
      else
        { s with
          n_query_responses := s.n_query_responses + 1
          n_billable_query_responses := s.n_billable_query_responses +
            (if isBillableResult r then 1 else 0)
          n_extracted_queries := s.n_extracted_queries +
            (if r.error.isNone then 1 else 0)
          complete_queries := s.complete_queries ++ [r] } := by
  unfold processOne enqueue_error isRetriableResult isBillableResult
    QueryError.from_query_result
  cases hr : r.error with
  | none => simp
  | some msg =>
    by_cases hb : is_billable_error_msg (some msg) <;>
    by_cases hm : s.max_retries = 0 <;>
    by_cases hret : QueryError.retriable
      { query := r.query, message := msg, max_retries := s.max_retries } <;>
    simp [hb, hm, hret, hr]

/-- Full characterization of the `process_results` loop body folded over a
result list. -/
theorem foldl_processOne (rs : List QueryResult) (s : RequestProcessor) :
    rs.foldl processOne s =
      { pending_queries := s.pending_queries ++
          (rs.filter (isRetriableResult s.max_retries)).map
            (fun r => stripUserAgent r.query.userQuery)
        retriable_queries := s.retriable_queries ++
          (rs.filter (isRetriableResult s.max_retries)).map stripResultUserAgent
        retriable_query_exceptions := s.retriable_query_exceptions ++
          (rs.filter (isRetriableResult s.max_retries)).map
            (fun r => QueryError.from_query_result r s.max_retries)
        complete_queries := s.complete_queries ++
          rs.filter (fun r => !isRetriableResult s.max_retries r)
        max_retries := s.max_retries
        n_extracted_queries := s.n_extracted_queries +
          rs.countP (fun r => r.error.isNone)
        n_query_responses := s.n_query_responses + rs.length
        n_billable_query_responses := s.n_billable_query_responses +
          rs.countP isBillableResult } := by
  induction rs generalizing s with
  | nil => simp
  | cons r rs ih =>
    rw [List.foldl_cons, processOne_eq]
    by_cases h : isRetriableResult s.max_retries r
    · rw [if_pos h, ih]
      simp [List.filter_cons, List.countP_cons, h]
      omega
    · rw [if_neg h, ih]
      simp [List.filter_cons, List.countP_cons, h]
      omega

end RequestProcessor

namespace RequestProcessor

/-- The state after a `process_results` call is the folded state over the
reset state, in both the raising and the returning branch. -/
theorem process_results_fst (s : RequestProcessor) (rs : List QueryResult) :
    (s.process_results rs).1 = rs.foldl processOne s.reset := by
  unfold process_results
  dsimp only
  split <;> rfl

theorem reset_fields (s : RequestProcessor) :
    s.reset.pending_queries = [] ∧ s.reset.retriable_queries = [] ∧
    s.reset.retriable_query_exceptions = [] ∧
    s.reset.complete_queries = s.complete_queries ∧
    s.reset.max_retries = s.max_retries ∧
    s.reset.n_extracted_queries = s.n_extracted_queries ∧
    s.reset.n_query_responses = s.n_query_responses ∧
    s.reset.n_billable_query_responses = s.n_billable_query_responses := by
  unfold reset
  exact ⟨rfl, rfl, rfl, rfl, rfl, rfl, rfl, rfl⟩

/-- The state after one `process_results` call, in closed form. -/
theorem process_results_state (s : RequestProcessor) (rs : List QueryResult) :
    (s.process_results rs).1 =
      { pending_queries := (rs.filter (isRetriableResult s.max_retries)).map
          (fun r => stripUserAgent r.query.userQuery)
        retriable_queries := (rs.filter (isRetriableResult s.max_retries)).map
          stripResultUserAgent
        retriable_query_exceptions :=
          (rs.filter (isRetriableResult s.max_retries)).map
            (fun r => QueryError.from_query_result r s.max_retries)
        complete_queries := s.complete_queries ++
          rs.filter (fun r => !isRetriableResult s.max_retries r)
        max_retries := s.max_retries
        n_extracted_queries := s.n_extracted_queries +
          rs.countP (fun r => r.error.isNone)
        n_query_responses := s.n_query_responses + rs.length
        n_billable_query_responses := s.n_billable_query_responses +
          rs.countP isBillableResult } := by
  rw [process_results_fst, foldl_processOne]
  unfold reset
  simp

end RequestProcessor

/-! ### Lemmas about `pyMaxBy` (Python `max(..., key=f)`) -/

namespace RequestProcessor

theorem pyMaxBy_foldl_mem (f : QueryError → ℚ) (xs : List QueryError) :
    ∀ acc, xs.foldl (fun a y => if f a < f y then y else a) acc ∈ acc :: xs := by
  induction xs with
  | nil => intro acc; simp
  | cons y ys ih =>
    intro acc
    rw [List.foldl_cons]
    by_cases hc : f acc < f y
    · rw [if_pos hc]
      rcases List.mem_cons.mp (ih y) with h | h
      · rw [h]; simp
      · simp [h]
    · rw [if_neg hc]
      rcases List.mem_cons.mp (ih acc) with h | h
      · rw [h]; simp
      · simp [h]

theorem pyMaxBy_foldl_le (f : QueryError → ℚ) (xs : List QueryError) :
    ∀ acc, f acc ≤ f (xs.foldl (fun a y => if f a < f y then y else a) acc) ∧
      ∀ x ∈ xs, f x ≤ f (xs.foldl (fun a y => if f a < f y then y else a) acc) := by
  induction xs with
  | nil => intro acc; simp
  | cons y ys ih =>
    intro acc
    rw [List.foldl_cons]
    obtain ⟨h1, h2⟩ := ih (if f acc < f y then y else acc)
    constructor
    · refine le_trans ?_ h1
      by_cases hc : f acc < f y
      · rw [if_pos hc]; exact le_of_lt hc
      · rw [if_neg hc]
    · intro x hx
      rcases List.mem_cons.mp hx with rfl | hx
      · refine le_trans ?_ h1
        by_cases hc : f acc < f x
        · rw [if_pos hc]
        · rw [if_neg hc]; exact le_of_not_lt hc
      · exact h2 x hx

theorem pyMaxBy_eq_none_iff (f : QueryError → ℚ) (l : List QueryError) :
    pyMaxBy f l = none ↔ l = [] := by
  cases l <;> simp [pyMaxBy]

theorem pyMaxBy_spec (f : QueryError → ℚ) (l : List QueryError) (e : QueryError)
    (h : pyMaxBy f l = some e) : e ∈ l ∧ ∀ x ∈ l, f x ≤ f e := by
  cases l with
  | nil => simp [pyMaxBy] at h
  | cons x xs =>
    unfold pyMaxBy at h
    obtain rfl : xs.foldl (fun a y => if f a < f y then y else a) x = e :=
      Option.some_injective _ h
    refine ⟨pyMaxBy_foldl_mem f xs x, ?_⟩
    intro z hz
    obtain ⟨h1, h2⟩ := pyMaxBy_foldl_le f xs x
    rcases List.mem_cons.mp hz with rfl | hz
    · exact h1
    · exact h2 z hz

end RequestProcessor

namespace RequestProcessor

theorem process_results_snd (s : RequestProcessor) (rs : List QueryResult) :
    (s.process_results rs).2 =
      match pyMaxBy QueryError.retry_seconds
        (rs.foldl processOne s.reset).retriable_query_exceptions with
      | some e => Except.error e
      | none => Except.ok (rs.foldl processOne s.reset).get_latest_results := by
  unfold process_results
  dsimp only
  split <;> rfl

theorem foldl_reset_exceptions (s : RequestProcessor) (rs : List QueryResult) :
    (rs.foldl processOne s.reset).retriable_query_exceptions =
      (rs.filter (isRetriableResult s.max_retries)).map
        (fun r => QueryError.from_query_result r s.max_retries) := by
  rw [foldl_processOne]
  unfold reset
  simp

theorem foldl_reset_latest (s : RequestProcessor) (rs : List QueryResult) :
    (rs.foldl processOne s.reset).get_latest_results =
      (s.complete_queries ++ rs.filter (fun r => !isRetriableResult s.max_retries r))
        ++ (rs.filter (isRetriableResult s.max_retries)).map stripResultUserAgent := by
  rw [foldl_processOne]
  unfold reset get_latest_results
  simp

end RequestProcessor

/-- C2: `process_results` raises iff `max_retries > 0` and some result
carries a retriable error; the raised exception is one of the retriable
results' exceptions and carries the greatest `retry_seconds` among them;
with no retriable error present (in particular with `max_retries = 0`) it
returns the accumulated complete queries followed by all input results,
without raising. -/
theorem process_results_raise_behavior (s : RequestProcessor)
    (rs : List QueryResult) :
    ((∃ e, (s.process_results rs).2 = Except.error e) ↔
      0 < s.max_retries ∧ ∃ r ∈ rs, hasRetriableError r = true)
    ∧ (∀ e, (s.process_results rs).2 = Except.error e →
        (∃ r ∈ rs, hasRetriableError r = true ∧
          e = QueryError.from_query_result r s.max_retries)
        ∧ ∀ r ∈ rs, hasRetriableError r = true →
          (QueryError.from_query_result r s.max_retries).retry_seconds ≤
            e.retry_seconds)
    ∧ ((s.max_retries = 0 ∨ ∀ r ∈ rs, hasRetriableError r = false) →
        (s.process_results rs).2 = Except.ok (s.complete_queries ++ rs)) := by
  refine ⟨?_, ?_, ?_⟩
  · rw [RequestProcessor.process_results_snd]
    constructor
    · rintro ⟨e, he⟩
      rcases hm : RequestProcessor.pyMaxBy QueryError.retry_seconds
        (rs.foldl RequestProcessor.processOne s.reset).retriable_query_exceptions with
        _ | e2
      · rw [hm] at he; simp at he
      · rw [RequestProcessor.foldl_reset_exceptions] at hm
        obtain ⟨hmem, _⟩ := RequestProcessor.pyMaxBy_spec _ _ _ hm
        obtain ⟨r, hr, _⟩ := List.mem_map.mp hmem
        have hfil := List.mem_filter.mp hr
        have := (RequestProcessor.isRetriableResult_eq s.max_retries r) ▸ hfil.2
        simp only [Bool.and_eq_true, decide_eq_true_eq] at this
        exact ⟨Nat.pos_of_ne_zero this.1, r, hfil.1, this.2⟩
    · rintro ⟨hm, r, hr, hret⟩
      rcases hmax : RequestProcessor.pyMaxBy QueryError.retry_seconds
        (rs.foldl RequestProcessor.processOne s.reset).retriable_query_exceptions with
        _ | e2
      · exfalso
        rw [RequestProcessor.pyMaxBy_eq_none_iff,
          RequestProcessor.foldl_reset_exceptions, List.map_eq_nil_iff,
          List.filter_eq_nil_iff] at hmax
        refine hmax r hr ?_
        rw [RequestProcessor.isRetriableResult_eq]
        simp [hret, Nat.pos_iff_ne_zero.mp hm]
      · exact ⟨e2, rfl⟩
  · intro e he
    rw [RequestProcessor.process_results_snd] at he
    rcases hmax : RequestProcessor.pyMaxBy QueryError.retry_seconds
      (rs.foldl RequestProcessor.processOne s.reset).retriable_query_exceptions with
      _ | e2
    · rw [hmax] at he; simp at he
    · rw [hmax] at he
      obtain rfl : e2 = e := by simpa using he
      rw [RequestProcessor.foldl_reset_exceptions] at hmax
      obtain ⟨hmem, hmax_le⟩ := RequestProcessor.pyMaxBy_spec _ _ _ hmax
      obtain ⟨r, hr, hre⟩ := List.mem_map.mp hmem
      have hfil := List.mem_filter.mp hr
      have hcond := (RequestProcessor.isRetriableResult_eq s.max_retries r) ▸ hfil.2
      simp only [Bool.and_eq_true, decide_eq_true_eq] at hcond
      refine ⟨⟨r, hfil.1, hcond.2, hre.symm⟩, ?_⟩
      intro r2 hr2 hret2
      refine hmax_le _ (List.mem_map.mpr ⟨r2, ?_, rfl⟩)
      refine List.mem_filter.mpr ⟨hr2, ?_⟩
      rw [RequestProcessor.isRetriableResult_eq]
      simp [hret2, hcond.1]
  · intro h
    have hfil : rs.filter (isRetriableResult s.max_retries) = [] := by
      rw [List.filter_eq_nil_iff]
      intro r hr
      rw [RequestProcessor.isRetriableResult_eq]
      rcases h with h | h
      · simp [h]
      · simp [h r hr]
    have hfil2 : rs.filter (fun r => !isRetriableResult s.max_retries r) = rs := by
      rw [List.filter_eq_self]
      intro r hr
      have : ¬isRetriableResult s.max_retries r = true := by
        intro hc
        have : r ∈ rs.filter (isRetriableResult s.max_retries) :=
          List.mem_filter.mpr ⟨hr, hc⟩
        rw [hfil] at this
        exact absurd this (List.not_mem_nil r)
      simp [this]
    rw [RequestProcessor.process_results_snd]
    rcases hmax : RequestProcessor.pyMaxBy QueryError.retry_seconds
      (rs.foldl RequestProcessor.processOne s.reset).retriable_query_exceptions with
      _ | e2
    · dsimp only
      rw [RequestProcessor.foldl_reset_latest, hfil, hfil2]
      simp
    · exfalso
      have := RequestProcessor.pyMaxBy_spec _ _ _ hmax
      rw [RequestProcessor.foldl_reset_exceptions, hfil] at this
      simp at this

/-! ## The coverage invariant of the request processor (C1) -/

theorem stripUserAgent_idem (uq : UserQuery) :
    stripUserAgent (stripUserAgent uq) = stripUserAgent uq := by
  unfold stripUserAgent
  rw [List.filter_filter]
  simp

namespace RequestProcessor

/-- After any `process_results` call, `pending_queries` is the
(userAgent-stripped) `userQuery` projection of `retriable_queries`. -/
theorem process_results_pending_proj (s : RequestProcessor)
    (rs : List QueryResult) :
    (s.process_results rs).1.pending_queries =
      (s.process_results rs).1.retriable_queries.map
        (fun r => stripUserAgent r.query.userQuery) := by
  rw [process_results_state]
  dsimp only
  rw [List.map_map]
  apply List.map_congr_left
  intro r _
  simp [Function.comp, stripResultUserAgent, stripUserAgent_idem]

theorem coverage_init (query : List UserQuery) (m : Nat) :
    userQueryCoverage query (init query m) := by
  unfold userQueryCoverage init
  simp [List.Perm.refl]

theorem coverage_step (query : List UserQuery) (s : RequestProcessor)
    (rs : List QueryResult)
    (hecho : rs.map (fun r => r.query.userQuery) = s.pending_queries)
    (hcov : userQueryCoverage query s) :
    userQueryCoverage query (s.process_results rs).1 := by
  unfold userQueryCoverage at hcov ⊢
  rw [process_results_state]
  dsimp only
  set f : QueryResult → UserQuery := fun r => stripUserAgent r.query.userQuery with hf
  have hperm : (rs.filter (fun r => !isRetriableResult s.max_retries r)).map f ++
      (rs.filter (isRetriableResult s.max_retries)).map f
      |>.Perm (rs.map f) := by
    rw [← List.map_append]
    exact (List.perm_append_comm.trans
      (List.filter_append_perm (isRetriableResult s.max_retries) rs)).map f
  have hinner : ((rs.filter (isRetriableResult s.max_retries)).map
      (fun r => stripUserAgent r.query.userQuery)).map stripUserAgent =
      (rs.filter (isRetriableResult s.max_retries)).map f := by
    rw [List.map_map]
    apply List.map_congr_left
    intro r _
    simp [hf, Function.comp, stripUserAgent_idem]
  have hrs : rs.map f = s.pending_queries.map stripUserAgent := by
    rw [← hecho, List.map_map]
    rfl
  rw [List.map_append, hinner, List.append_assoc]
  refine List.Perm.trans ?_ hcov
  refine List.Perm.append_left _ ?_
  rw [← hrs]
  exact hperm

theorem runAttempts_coverage (query : List UserQuery) :
    ∀ (attempts : List (List QueryResult)) (s : RequestProcessor),
      wfAttempts s attempts = true → userQueryCoverage query s →
      userQueryCoverage query (runAttempts s attempts) := by
  intro attempts
  induction attempts with
  | nil => intro s _ hcov; exact hcov
  | cons rs rest ih =>
    intro s hwf hcov
    unfold wfAttempts at hwf
    rw [Bool.and_eq_true] at hwf
    have hecho : rs.map (fun r => r.query.userQuery) = s.pending_queries := by
      have := hwf.1
      rwa [beq_iff_eq] at this
    exact ih _ hwf.2 (coverage_step query s rs hecho hcov)

theorem runAttempts_append (s : RequestProcessor)
    (l1 l2 : List (List QueryResult)) :
    runAttempts s (l1 ++ l2) = runAttempts (runAttempts s l1) l2 := by
  induction l1 generalizing s with
  | nil => rfl
  | cons rs rest ih => simp [runAttempts, ih]

theorem wfAttempts_append (s : RequestProcessor)
    (l1 l2 : List (List QueryResult)) :
    wfAttempts s (l1 ++ l2) =
      (wfAttempts s l1 && wfAttempts (runAttempts s l1) l2) := by
  induction l1 generalizing s with
  | nil => simp [wfAttempts, runAttempts]
  | cons rs rest ih => simp [wfAttempts, runAttempts, ih, Bool.and_assoc]

end RequestProcessor

/-- C1: after every completed `process_results` call of a trace that
respects the server contract (each response echoes the pending queries in
order), `completeQueries ∪ retriableQueries` covers every input query of
the original batch exactly once (their stripped `userQuery` projections
are a permutation of the stripped inputs, so in particular the sizes
agree), and `pendingQueries` equals the `userQuery` projection of
`retriableQueries` with any `userAgent` key removed. -/
theorem requestProcessor_coverage_invariant (query : List UserQuery) (m : Nat)
    (attempts : List (List QueryResult)) (rs : List QueryResult)
    (hwf : RequestProcessor.wfAttempts (RequestProcessor.init query m)
      (attempts ++ [rs]) = true) :
    let s := RequestProcessor.runAttempts (RequestProcessor.init query m)
      (attempts ++ [rs])
    ((s.complete_queries ++ s.retriable_queries).map
      (fun r => stripUserAgent r.query.userQuery)).Perm
        (query.map stripUserAgent)
    ∧ s.complete_queries.length + s.retriable_queries.length = query.length
    ∧ s.pending_queries = s.retriable_queries.map
        (fun r => stripUserAgent r.query.userQuery) := by
  intro s
  have hcov : RequestProcessor.userQueryCoverage query s :=
    RequestProcessor.runAttempts_coverage query (attempts ++ [rs]) _ hwf
      (RequestProcessor.coverage_init query m)
  have hs : s = ((RequestProcessor.runAttempts (RequestProcessor.init query m)
      attempts).process_results rs).1 := by
    show RequestProcessor.runAttempts _ (attempts ++ [rs]) = _
    rw [RequestProcessor.runAttempts_append]
    rfl
  have hproj : s.pending_queries = s.retriable_queries.map
      (fun r => stripUserAgent r.query.userQuery) := by
    rw [hs]
    exact RequestProcessor.process_results_pending_proj _ _
  have hmain : ((s.complete_queries ++ s.retriable_queries).map
      (fun r => stripUserAgent r.query.userQuery)).Perm
        (query.map stripUserAgent) := by
    unfold RequestProcessor.userQueryCoverage at hcov
    rw [List.map_append]
    rw [hproj] at hcov
    rw [List.map_map] at hcov
    have : (s.retriable_queries.map
        (stripUserAgent ∘ fun r => stripUserAgent r.query.userQuery)) =
        s.retriable_queries.map (fun r => stripUserAgent r.query.userQuery) := by
      apply List.map_congr_left
      intro r _
      simp [Function.comp, stripUserAgent_idem]
    rwa [this] at hcov
  refine ⟨hmain, ?_, hproj⟩
  have := hmain.length_eq
  simpa using this

/-! ## Billing accounting (C5) -/

namespace RequestProcessor

theorem runAttempts_counters :
    ∀ (attempts : List (List QueryResult)) (s : RequestProcessor),
      (runAttempts s attempts).n_query_responses =
        s.n_query_responses + attempts.flatten.length
      ∧ (runAttempts s attempts).n_billable_query_responses =
        s.n_billable_query_responses + attempts.flatten.countP isBillableResult := by
  intro attempts
  induction attempts with
  | nil => intro s; simp [runAttempts]
  | cons rs rest ih =>
    intro s
    obtain ⟨h1, h2⟩ := ih (s.process_results rs).1
    refine ⟨?_, ?_⟩
    · show (runAttempts (s.process_results rs).1 rest).n_query_responses = _
      rw [h1, process_results_state]
      dsimp only
      simp
      omega
    · show (runAttempts (s.process_results rs).1 rest).n_billable_query_responses = _
      rw [h2, process_results_state]
      dsimp only
      simp [List.countP_append]
      omega

end RequestProcessor

/-- C5: over any sequence of processed result lists, the number of
billable query responses counted by the processor never exceeds the number
of query responses, and equals the number of per-query results whose
`error` is absent or is classified billable (not a non-billable substring
match nor a domain-occupied message; an empty error is billable). -/
theorem billing_accounting (query : List UserQuery) (m : Nat)
    (attempts : List (List QueryResult)) :
    let s := RequestProcessor.runAttempts (RequestProcessor.init query m) attempts
    s.n_query_responses = attempts.flatten.length
    ∧ s.n_billable_query_responses = attempts.flatten.countP isBillableResult
    ∧ s.n_billable_query_responses ≤ s.n_query_responses := by
  intro s
  obtain ⟨h1, h2⟩ := RequestProcessor.runAttempts_counters attempts
    (RequestProcessor.init query m)
  rw [show (RequestProcessor.init query m).n_query_responses = 0 from rfl,
    Nat.zero_add] at h1
  rw [show (RequestProcessor.init query m).n_billable_query_responses = 0 from rfl,
    Nat.zero_add] at h2
  refine ⟨h1, h2, ?_⟩
  show (RequestProcessor.runAttempts (RequestProcessor.init query m)
      attempts).n_billable_query_responses ≤
    (RequestProcessor.runAttempts (RequestProcessor.init query m)
      attempts).n_query_responses
  rw [h1, h2]
  exact List.countP_le_length isBillableResult

/-! ## userAgent stripping on enqueue (C10) -/

/-- C10: enqueuing a retriable result whose echoed `query.userQuery`
contains a `userAgent` key stores the record with that key deleted (the
stored record differs from the received one), sets the corresponding
pending query to the stripped `userQuery` of the stored record, and
`get_latest_results` thereafter ends with that stripped record. -/
theorem enqueue_error_strips_user_agent (s : RequestProcessor)
    (r : QueryResult) (e : QueryError)
    (h : r.query.userQuery.any (fun kv => kv.1 == "userAgent") = true) :
    (s.enqueue_error r e).retriable_queries =
      s.retriable_queries ++ [stripResultUserAgent r]
    ∧ (stripResultUserAgent r).query.userQuery.all
        (fun kv => kv.1 != "userAgent") = true
    ∧ stripResultUserAgent r ≠ r
    ∧ (s.enqueue_error r e).pending_queries =
        s.pending_queries ++ [(stripResultUserAgent r).query.userQuery]
    ∧ (s.enqueue_error r e).get_latest_results =
        s.get_latest_results ++ [stripResultUserAgent r] := by
  have hlen : (stripUserAgent r.query.userQuery).length <
      r.query.userQuery.length := by
    unfold stripUserAgent
    rw [List.length_filter_lt_length_iff_exists]
    obtain ⟨kv, hkv, hpred⟩ := List.any_eq_true.mp h
    exact ⟨kv, hkv, by simp_all⟩
  refine ⟨rfl, ?_, ?_, rfl, ?_⟩
  · rw [List.all_eq_true]
    intro kv hkv
    exact (List.mem_filter.mp hkv).2
  · intro hc
    have : (stripResultUserAgent r).query.userQuery = r.query.userQuery := by
      rw [hc]
    unfold stripResultUserAgent at this
    dsimp only at this
    rw [this] at hlen
    exact lt_irrefl _ hlen
  · unfold RequestProcessor.get_latest_results RequestProcessor.enqueue_error
    dsimp only
    rw [List.append_assoc]

/-! ## Domain-occupied parsing (C4) -/

/-- C4: when an error message matches the case-insensitive occupied-domain
pattern with groups D and S, `domain_occupied` is (D, float(S)) with the
300-second default on an unparseable S, `retriable` is true and
`retry_seconds` is that value; when the message does not match and
contains no retriable substring, `domain_occupied` is `None`, `retriable`
is false and `retry_seconds` is 0. -/
theorem query_error_domain_occupied_parsing (q : QueryInfo) (msg : String)
    (m : Nat) :
    (∀ dS sS, domainOccupiedMatch msg = some (dS, sS) →
      DomainOccupied.from_message msg = some
        { domain := dS,
          retry_seconds := (pyFloat sS).getD DomainOccupied.DEFAULT_RETRY_SECONDS }
      ∧ QueryError.retriable ⟨q, msg, m⟩ = true
      ∧ QueryError.retry_seconds ⟨q, msg, m⟩ =
          (pyFloat sS).getD DomainOccupied.DEFAULT_RETRY_SECONDS
      ∧ (∀ x, pyFloat sS = some x → QueryError.retry_seconds ⟨q, msg, m⟩ = x)
      ∧ (pyFloat sS = none → QueryError.retry_seconds ⟨q, msg, m⟩ = 300))
    ∧ (domainOccupiedMatch msg = none →
        is_retriable_error_msg (some msg) = false →
      QueryError.domain_occupied ⟨q, msg, m⟩ = none
      ∧ QueryError.retriable ⟨q, msg, m⟩ = false
      ∧ QueryError.retry_seconds ⟨q, msg, m⟩ = 0) := by
  constructor
  · intro dS sS h
    have hfm : DomainOccupied.from_message msg = some
        { domain := dS,
          retry_seconds := (pyFloat sS).getD DomainOccupied.DEFAULT_RETRY_SECONDS } := by
      unfold DomainOccupied.from_message
      rw [h]
    have hdo : QueryError.domain_occupied ⟨q, msg, m⟩ = some
        { domain := dS,
          retry_seconds := (pyFloat sS).getD DomainOccupied.DEFAULT_RETRY_SECONDS } := by
      unfold QueryError.domain_occupied
      exact hfm
    have hrs : QueryError.retry_seconds ⟨q, msg, m⟩ =
        (pyFloat sS).getD DomainOccupied.DEFAULT_RETRY_SECONDS := by
      unfold QueryError.retry_seconds
      rw [hdo]
    refine ⟨hfm, ?_, hrs, ?_, ?_⟩
    · unfold QueryError.retriable
      rw [hdo]
      simp
    · intro x hx
      rw [hrs, hx]
      rfl
    · intro hx
      rw [hrs, hx]
      rfl
  · intro h1 h2
    have hfm : DomainOccupied.from_message msg = none := by
      unfold DomainOccupied.from_message
      rw [h1]
    have hdo : QueryError.domain_occupied ⟨q, msg, m⟩ = none := hfm
    refine ⟨hdo, ?_, ?_⟩
    · unfold QueryError.retriable
      rw [hdo]
      simpa using h2
    · unfold QueryError.retry_seconds
      rw [hdo]

/-! ## request_raw terminal handling (C3) -/

/-- C3: when the retry-wrapped request ends with an underlying
`_QueryError`, `request_raw` returns the partial result
`completeQueries ++ retriableQueries` without raising, leaves
`n_fatal_errors` unchanged and still counts a result; any other escaping
exception increments `n_fatal_errors` and re-raises. -/
theorem request_raw_terminal_recovery (rp : RequestProcessor) (nInput : Nat)
    (agg : AggStats) (outcome : RequestOutcome) :
    (∀ e, outcome = RequestOutcome.queryError e →
      (request_raw_terminal rp nInput agg outcome).1 =
        Except.ok (rp.complete_queries ++ rp.retriable_queries)
      ∧ (request_raw_terminal rp nInput agg outcome).2.n_fatal_errors =
          agg.n_fatal_errors
      ∧ (request_raw_terminal rp nInput agg outcome).2.n_results =
          agg.n_results + 1)
    ∧ (outcome = RequestOutcome.fatal →
      (request_raw_terminal rp nInput agg outcome).1 = Except.error ()
      ∧ (request_raw_terminal rp nInput agg outcome).2.n_fatal_errors =
          agg.n_fatal_errors + 1) := by
  constructor
  · rintro e rfl
    refine ⟨rfl, rfl, rfl⟩
  · rintro rfl
    refine ⟨rfl, rfl⟩

/-! ## Retry stop strategy (C6) -/

/-- C6 counterexample: a retriable (non-domain-occupied) QueryError with
`max_retries = 1` observed at attempt number 5 after 10 seconds: the
claimed rule (stop at the earlier of 15 minutes or `maxQueryErrorRetries+1`
attempts) says stop, but `autoextract_stop_strategy` says continue. -/
theorem stop_strategy_attempt_cap_counterexample :
    QueryError.retriable ⟨⟨"1", "example.com", []⟩, "query timed out", 1⟩ = true
    ∧ (QueryError.domain_occupied
        ⟨⟨"1", "example.com", []⟩, "query timed out", 1⟩) = none
    ∧ 0 < (QueryError.mk ⟨"1", "example.com", []⟩ "query timed out" 1).max_retries
    ∧ autoextract_stop_strategy
        (RetryExc.queryError ⟨⟨"1", "example.com", []⟩, "query timed out", 1⟩)
        ⟨5, 10⟩ = some false
    ∧ claimedQueryErrorStop 1 ⟨5, 10⟩ = true := by
  decide

/-- C6 amended: the stop strategy ignores `max_retries` entirely: a
throttling (429) loop never stops; a domain-occupied QueryError loop never
stops; any other retriable QueryError loop stops exactly when 15 minutes
have elapsed. -/
theorem stop_strategy_behavior :
    (∀ st : RetryCallState,
      autoextract_stop_strategy (RetryExc.requestError 429) st = some false)
    ∧ (∀ (e : QueryError) (st : RetryCallState),
        (e.domain_occupied).isSome = true →
        autoextract_stop_strategy (RetryExc.queryError e) st = some false)
    ∧ (∀ (e : QueryError) (st : RetryCallState),
        e.retriable = true → (e.domain_occupied).isSome = false →
        autoextract_stop_strategy (RetryExc.queryError e) st =
          some (stop_after_delay RETRY_STOP_DELAY st)) := by
  refine ⟨?_, ?_, ?_⟩
  · intro st
    rfl
  · intro e st h
    unfold autoextract_stop_strategy
    simp [is_throttling_error, is_network_error, is_server_error,
      is_domain_occupied_query_error, h, stop_never]
  · intro e st hret hdo
    unfold autoextract_stop_strategy
    simp [is_throttling_error, is_network_error, is_server_error,
      is_domain_occupied_query_error, is_retriable_query_error, hdo, hret]

/-! ## Request serialization (C7) -/

/-- C7: `as_dict` of a minimal request is exactly
`{url, pageType, articleBodyRaw: false}`; with `fullHtml=true, meta='m',
extra={foo:'bar'}` the extra pair is merged last; an extra key overrides an
earlier field; unset (`None`) values are dropped and the `extra` key itself
is never emitted. -/
theorem request_as_dict_round_trip (U P : String) :
    Request.as_dict { url := U, pageType := P } =
      [("url", Val.s U), ("pageType", Val.s P), ("articleBodyRaw", Val.b false)]
    ∧ Request.as_dict { url := U, pageType := P, meta := some "m", fullHtml := some true, extra := some [("foo", Val.s "bar")] } =
      [("url", Val.s U), ("pageType", Val.s P), ("meta", Val.s "m"),
        ("articleBodyRaw", Val.b false), ("fullHtml", Val.b true),
        ("foo", Val.s "bar")]
    ∧ Request.as_dict { url := U, pageType := P, extra := some [("articleBodyRaw", Val.b true)] } =
      [("url", Val.s U), ("pageType", Val.s P), ("articleBodyRaw", Val.b true)]
    ∧ (∀ (r : Request) (k : String) (v : Val),
        (k, v) ∈ r.as_dict → v ≠ Val.null ∧ k ≠ "extra") := by
  refine ⟨rfl, rfl, rfl, ?_⟩
  intro r k v hmem
  unfold Request.as_dict at hmem
  have houter := List.mem_filter.mp hmem
  have hinner := List.mem_filter.mp houter.1
  constructor
  · simpa using houter.2
  · simpa using hinner.2

/-! ## API key resolution (C8) -/

/-- C8: `get_apikey` returns a non-empty explicit key as is; with a falsy
explicit key it returns a non-empty `ZYTE_AUTOEXTRACT_KEY` environment
value; when both are missing or empty it raises `NoApiKey`. -/
theorem get_apikey_resolution (key : Option String)
    (environ : String → Option String) :
    (∀ v, key = some v → v ≠ "" → get_apikey key environ = Except.ok v)
    ∧ (∀ v, pyTruthy key = false → environ ENV_VARIABLE = some v → v ≠ "" →
        get_apikey key environ = Except.ok v)
    ∧ (pyTruthy key = false → pyTruthy (environ ENV_VARIABLE) = false →
        get_apikey key environ = Except.error ApiKeyError.noApiKey) := by
  refine ⟨?_, ?_, ?_⟩
  · rintro v rfl hv
    have hb : (v != "") = true := by simpa using hv
    simp [get_apikey, pyTruthy, hb]
  · intro v hk he hv
    have hb : (v != "") = true := by simpa using hv
    unfold get_apikey
    rw [hk, he]
    simp [pyTruthy, hb]
  · intro hk he
    unfold get_apikey
    rw [hk]
    cases henv : environ ENV_VARIABLE with
    | none => simp [hk]
    | some v =>
      rw [henv] at he
      simp [pyTruthy] at he
      simp [pyTruthy, he]

/-! ## User agent (C9) -/

/-- C9 counterexample: the composed header starts with
`scrapinghub-autoextract/`, not `zyte-autoextract/`. -/
theorem user_agent_prefix_counterexample :
    user_agent "0.7.0" "aiohttp" "3.7.4" ≠
      "zyte-autoextract/0.7.0 aiohttp/3.7.4" := by
  decide

/-- C9 amended: for every library version and transport name/version, the
composed User-Agent header equals
`scrapinghub-autoextract/<lib-version> <transport-name>/<transport-version>`. -/
theorem user_agent_format (version libName libVersion : String) :
    user_agent version libName libVersion =
      "scrapinghub-autoextract/" ++ version ++ " " ++ libName ++ "/" ++
        libVersion := rfl

/-! ## Concrete witnesses -/

/-- C1 witness: a two-query batch, first attempt succeeding on the first
query and retriably failing on the second, second attempt succeeding:
the invariant holds after the final call. -/
theorem requestProcessor_coverage_invariant_witness :
    (RequestProcessor.runAttempts
      (RequestProcessor.init [[("url", Val.s "a")], [("url", Val.s "b")]] 3)
      ([[⟨⟨"1", "d", [("url", Val.s "a")]⟩, none, []⟩,
         ⟨⟨"2", "d", [("url", Val.s "b")]⟩, some "query timed out", []⟩]] ++
       [[⟨⟨"3", "d", [("url", Val.s "b")]⟩, none, []⟩]])).complete_queries.length
    + (RequestProcessor.runAttempts
      (RequestProcessor.init [[("url", Val.s "a")], [("url", Val.s "b")]] 3)
      ([[⟨⟨"1", "d", [("url", Val.s "a")]⟩, none, []⟩,
         ⟨⟨"2", "d", [("url", Val.s "b")]⟩, some "query timed out", []⟩]] ++
       [[⟨⟨"3", "d", [("url", Val.s "b")]⟩, none, []⟩]])).retriable_queries.length
    = 2 := by
  have h := requestProcessor_coverage_invariant
    [[("url", Val.s "a")], [("url", Val.s "b")]] 3
    [[⟨⟨"1", "d", [("url", Val.s "a")]⟩, none, []⟩,
      ⟨⟨"2", "d", [("url", Val.s "b")]⟩, some "query timed out", []⟩]]
    [⟨⟨"3", "d", [("url", Val.s "b")]⟩, none, []⟩]
    (by decide)
  exact h.2.1

/-- C2 witness: with `max_retries = 3` a lone retriable error raises; with
`max_retries = 0` the same response is returned unraisen. -/
theorem process_results_raise_behavior_witness :
    (∃ e, ((RequestProcessor.init [[("url", Val.s "b")]] 3).process_results
      [⟨⟨"2", "d", [("url", Val.s "b")]⟩, some "query timed out", []⟩]).2 =
        Except.error e)
    ∧ ((RequestProcessor.init [[("url", Val.s "b")]] 0).process_results
      [⟨⟨"2", "d", [("url", Val.s "b")]⟩, some "query timed out", []⟩]).2 =
        Except.ok [⟨⟨"2", "d", [("url", Val.s "b")]⟩, some "query timed out", []⟩] := by
  constructor
  · exact (process_results_raise_behavior _ _).1.mpr
      ⟨by decide,
       ⟨⟨"2", "d", [("url", Val.s "b")]⟩, some "query timed out", []⟩,
       by decide, by decide⟩
  · exact (process_results_raise_behavior _ _).2.2 (Or.inl rfl)

/-- C3 witness: a processor holding one complete and one retriable result;
QueryError exhaustion returns both and leaves `n_fatal_errors` alone, a
fatal outcome bumps it and re-raises. -/
theorem request_raw_terminal_recovery_witness :
    (request_raw_terminal ⟨[], [⟨⟨"2", "d", []⟩, some "query timed out", []⟩], [], [⟨⟨"1", "d", []⟩, none, []⟩], 3, 1, 2, 2⟩ 2 {}
      (RequestOutcome.queryError ⟨⟨"2", "d", []⟩, "query timed out", 3⟩)).1 =
      Except.ok [⟨⟨"1", "d", []⟩, none, []⟩, ⟨⟨"2", "d", []⟩, some "query timed out", []⟩]
    ∧ (request_raw_terminal ⟨[], [⟨⟨"2", "d", []⟩, some "query timed out", []⟩], [], [⟨⟨"1", "d", []⟩, none, []⟩], 3, 1, 2, 2⟩ 2 {}
      RequestOutcome.fatal).2.n_fatal_errors = 1 := by
  constructor
  · exact ((request_raw_terminal_recovery _ 2 {} _).1 _ rfl).1
  · exact ((request_raw_terminal_recovery _ 2 {} _).2 rfl).2

/-- C4 witness: the three S1 scenarios (parseable seconds, unparseable
seconds defaulting to 300, and a non-matching non-retriable message). -/
theorem query_error_domain_occupied_parsing_witness :
    QueryError.retriable ⟨⟨"1", "x", []⟩, "Domain example.com is occupied, please retry in 23.5 seconds", 3⟩ = true
    ∧ QueryError.retry_seconds ⟨⟨"1", "x", []⟩, "Domain example.com is occupied, please retry in 23.5 seconds", 3⟩ = mkRat 47 2
    ∧ QueryError.retry_seconds ⟨⟨"1", "x", []⟩, "Domain example.com is occupied, please retry in asd seconds", 3⟩ = 300
    ∧ QueryError.domain_occupied ⟨⟨"1", "x", []⟩, "foo bar", 3⟩ = none
    ∧ QueryError.retriable ⟨⟨"1", "x", []⟩, "foo bar", 3⟩ = false
    ∧ QueryError.retry_seconds ⟨⟨"1", "x", []⟩, "foo bar", 3⟩ = 0 := by
  have h1 := (query_error_domain_occupied_parsing ⟨"1", "x", []⟩
    "Domain example.com is occupied, please retry in 23.5 seconds" 3).1
    "example.com" "23.5" (by decide)
  have h2 := (query_error_domain_occupied_parsing ⟨"1", "x", []⟩
    "Domain example.com is occupied, please retry in asd seconds" 3).1
    "example.com" "asd" (by decide)
  have h3 := (query_error_domain_occupied_parsing ⟨"1", "x", []⟩ "foo bar" 3).2
    (by decide) (by decide)
  refine ⟨h1.2.1, ?_, ?_, h3.1, h3.2.1, h3.2.2⟩
  · exact h1.2.2.2.1 (mkRat 47 2) (by decide)
  · exact h2.2.2.2.2 (by decide)

/-- C6 witness for the amended stop behavior: a domain-occupied loop does
not stop even far past 15 minutes; a plain retriable loop stops right
after 15 minutes; a throttling loop never stops. -/
theorem stop_strategy_behavior_witness :
    autoextract_stop_strategy (RetryExc.queryError ⟨⟨"1", "d", []⟩, "domain d is occupied, please retry in 5 seconds", 2⟩) ⟨7, 100000⟩ = some false
    ∧ autoextract_stop_strategy (RetryExc.queryError ⟨⟨"1", "d", []⟩, "query timed out", 2⟩) ⟨2, 901⟩ = some (stop_after_delay RETRY_STOP_DELAY ⟨2, 901⟩)
    ∧ autoextract_stop_strategy (RetryExc.requestError 429) ⟨50, 100000⟩ = some false := by
  refine ⟨?_, ?_, ?_⟩
  · exact stop_strategy_behavior.2.1 _ _ (by decide)
  · exact stop_strategy_behavior.2.2 _ _ (by decide) (by decide)
  · exact stop_strategy_behavior.1 _

/-- C7 witness: a concrete entry of a serialized request is neither a
dropped `None` value nor the `extra` key. -/
theorem request_as_dict_round_trip_witness :
    Val.s "u" ≠ Val.null ∧ "url" ≠ "extra" :=
  (request_as_dict_round_trip "u" "p").2.2.2
    { url := "u", pageType := "p" } "url" (Val.s "u") (by decide)

/-- C8 witness: explicit key wins; environment fallback; both falsy raises. -/
theorem get_apikey_resolution_witness :
    get_apikey (some "foo") (fun _ => none) = Except.ok "foo"
    ∧ get_apikey none (fun v => if v = "ZYTE_AUTOEXTRACT_KEY" then some "envkey" else none) = Except.ok "envkey"
    ∧ get_apikey (some "") (fun _ => none) = Except.error ApiKeyError.noApiKey := by
  refine ⟨?_, ?_, ?_⟩
  · exact (get_apikey_resolution _ _).1 "foo" rfl (by decide)
  · exact (get_apikey_resolution _ _).2.1 "envkey" (by decide) (by decide)
      (by decide)
  · exact (get_apikey_resolution _ _).2.2 (by decide) (by decide)

/-- C10 witness: enqueuing a result whose `userQuery` carries a
`userAgent` key stores a record different from the received one, and the
pending entry is its stripped `userQuery`. -/
theorem enqueue_error_strips_user_agent_witness :
    stripResultUserAgent ⟨⟨"9", "d", [("url", Val.s "u"), ("userAgent", Val.s "x")]⟩, some "query timed out", []⟩ ≠
      ⟨⟨"9", "d", [("url", Val.s "u"), ("userAgent", Val.s "x")]⟩, some "query timed out", []⟩
    ∧ ((RequestProcessor.init [] 0).enqueue_error
        ⟨⟨"9", "d", [("url", Val.s "u"), ("userAgent", Val.s "x")]⟩, some "query timed out", []⟩
        ⟨⟨"9", "d", []⟩, "query timed out", 0⟩).pending_queries =
      [] ++ [(stripResultUserAgent ⟨⟨"9", "d", [("url", Val.s "u"), ("userAgent", Val.s "x")]⟩, some "query timed out", []⟩).query.userQuery] := by
  have h := enqueue_error_strips_user_agent (RequestProcessor.init [] 0)
    ⟨⟨"9", "d", [("url", Val.s "u"), ("userAgent", Val.s "x")]⟩, some "query timed out", []⟩
    ⟨⟨"9", "d", []⟩, "query timed out", 0⟩ (by decide)
  exact ⟨h.2.2.1, h.2.2.2.1⟩
